import Mathlib

/-!
Shallow embedding of `src/spi.c` (Python bindings for Linux spidev), and
theorems checking the natural-language specification against it.

The C module keeps per-instance state `{fd, mode, bpw, msh}` (spi.c:46-54)
and exposes three methods: `SPI_open` (spi.c:216-268), `SPI_close`
(spi.c:78-93) and `SPI_transfer` (spi.c:101-209).  OS behaviour (the
`open`/`close` syscalls, the query ioctls and the full-duplex transfer
ioctl) is modelled by explicit oracles passed to each function.
-/

namespace Spipy

/-- spi.c:33 `#define MAXPATH 16` -/
def MAXPATH : ℕ := 16

/-- spi.c:34 `#define MAX_TRANSFER_LENGTH 256` -/
def MAX_TRANSFER_LENGTH : ℕ := 256

/-- The per-instance state of the `SPI` object (spi.c:46-54).
`fd` is a C `int` file descriptor, `-1` is the unopened sentinel
(spi.c:65); `mode`, `bpw` are `uint8_t` and `msh` is `uint32_t`,
modelled as `ℕ` (only ever assigned values read back from the kernel). -/
structure SPI where
  fd : ℤ
  mode : ℕ
  bpw : ℕ
  msh : ℕ
deriving DecidableEq, Repr

/-- spi.c:58-72 `SPI_new`: a fresh instance, unopened, fields zeroed. -/
def SPI_new : SPI := { fd := -1, mode := 0, bpw := 0, msh := 0 }

/-- The Python-level exceptions the module can set.
`ioErrorFromErrno` models `PyErr_SetFromErrno(PyExc_IOError)` (spi.c:82);
`attributeError` models `PyErr_SetString(PyExc_AttributeError, msg)`
(spi.c:129; the spec's error taxonomy names this kind `ValueError`);
`overflowError` models `PyErr_SetString(PyExc_OverflowError, msg)`
(spi.c:232; the spec's `PathOverflow`);
`spiError` models `PyErr_SetString(SpiError, msg)` (spi.c:241,247,254,261;
the spec's `OpenError`/`QueryError`). -/
inductive PyErr where
  | ioErrorFromErrno : PyErr
  | attributeError : String → PyErr
  | overflowError : String → PyErr
  | spiError : String → PyErr
deriving DecidableEq, Repr

/-- spi.c:78-93 `SPI_close`.  `closeSyscallFails` is the oracle for
whether `close(self->fd)` returns `-1`; it is only consulted when
`self->fd != -1` (short-circuit `&&` at spi.c:80).  On syscall failure
the C function sets `PyExc_IOError` and returns NULL at once, i.e. the
instance state is not touched; otherwise it resets all four fields
(spi.c:86-89) and returns `None`.  The result pairs the raised exception
(if any) with the post-call instance state. -/
def SPI_close (self : SPI) (closeSyscallFails : Bool) : Option PyErr × SPI :=
  if self.fd ≠ -1 ∧ closeSyscallFails = true then
    (some .ioErrorFromErrno, self)
  else
    (none, { fd := -1, mode := 0, bpw := 0, msh := 0 })

/-- spi.c:124-133, the transmit-conversion loop of `SPI_transfer`:
each element is read with `PyInt_AsLong`; if `tx_char > 255 || tx_char < 0`
the loop raises `PyExc_AttributeError` and returns, otherwise the byte is
stored into `tx_buf`.  `checkTx` returns the converted byte list, or
`none` when some element is out of range. -/
def checkTx : List ℤ → Option (List ℕ)
  | [] => some []
  | c :: rest =>
    if 255 < c ∨ c < 0 then none
    else (checkTx rest).map (fun bs => c.toNat :: bs)

/-- Number of leading in-range elements: the conversion loop
(spi.c:124-133) writes `tx_buf[i]` exactly for the indices `i` of this
valid prefix before it either finishes or raises on the first
out-of-range element. -/
def validPrefixLen : List ℤ → ℕ
  | [] => 0
  | c :: rest => if 255 < c ∨ c < 0 then 0 else validPrefixLen rest + 1

/-- spi.c:141-148: `transfer_length = (tx_length > rx_length) ? tx_length
: rx_length` (both are C `int`s; `rx_length` comes from the optional
second Python argument and may be negative). -/
def transfer_length (tx_length rx_length : ℤ) : ℤ :=
  if tx_length > rx_length then tx_length else rx_length

/-- Observable outcome of one `SPI_transfer` call: the Python-level
result (exception or returned tuple of received bytes), whether the
`SPI_IOC_MESSAGE` ioctl was issued (spi.c:181), the descriptor it was
issued on, and the transmit buffer handed to the kernel
(`tx_buf[0..transfer_length)`, spi.c:170-178). -/
structure TransferOutcome where
  result : Except PyErr (List ℕ)
  ioctlIssued : Bool
  ioctlFd : Option ℤ
  txSent : Option (List ℕ)

/-- spi.c:101-209 `SPI_transfer`.  `kernel` is the oracle for the
full-duplex transfer ioctl: given the `transfer_length`-byte transmit
buffer it yields the bytes the device clocks back (the kernel writes
exactly `.len` bytes into `rx_buf`, so a well-formed oracle is
length-preserving; the tuple construction at spi.c:204-206 reads exactly
`rx_buf[0..transfer_length)`, hence the `take`).

Faithful points: there is no check that the instance is opened — the
ioctl is issued on `self->fd` whatever it is; there is no length check
against `MAX_TRANSFER_LENGTH` — the value-level model uses unbounded
lists, and `accessesInBounds` below tracks which calls stay inside the
fixed 256-byte C buffers; a failed ioctl (`ret < 1`, spi.c:182-186) only
prints a message and the receive tuple is returned regardless, so the
returned value does not depend on it.  The transmit buffer is `txData`
copied into the prefix (spi.c:124-133) followed by the zero padding
written by the loop at spi.c:150-155. -/
def SPI_transfer (self : SPI) (kernel : List ℕ → List ℕ)
    (txData : List ℤ) (rx_length : ℤ) : TransferOutcome :=
  match checkTx txData with
  | none =>
    { result := .error (.attributeError "Transmit data should be valid 8-bit data"),
      ioctlIssued := false, ioctlFd := none, txSent := none }
  | some txBytes =>
    let tlen : ℕ := (transfer_length (txData.length : ℤ) rx_length).toNat
    let tx_buf : List ℕ := txBytes ++ List.replicate (tlen - txData.length) 0
    let rx_buf : List ℕ := kernel tx_buf
    { result := .ok (rx_buf.take tlen),
      ioctlIssued := true, ioctlFd := some self.fd, txSent := some tx_buf }

/-- The indices of `tx_buf[MAX_TRANSFER_LENGTH]` written by one
`SPI_transfer` call: the conversion loop writes the valid prefix
(spi.c:124-133; on an out-of-range element it raises after writing the
indices before it), and, when all elements are in range, the padding
loop writes `tx_length ≤ i < transfer_length` (spi.c:150-155). -/
def txBufWriteIndices (txData : List ℤ) (rx_length : ℤ) : List ℕ :=
  match checkTx txData with
  | none => List.range (validPrefixLen txData)
  | some _ =>
    List.range txData.length ++
      List.range' txData.length
        ((transfer_length (txData.length : ℤ) rx_length).toNat - txData.length)

/-- The indices of `rx_buf[MAX_TRANSFER_LENGTH]` accessed by one
`SPI_transfer` call: the kernel writes and the tuple construction reads
`rx_buf[0..transfer_length)` (spi.c:174, spi.c:204-206); nothing is
accessed when the conversion loop raises first. -/
def rxBufAccessIndices (txData : List ℤ) (rx_length : ℤ) : List ℕ :=
  match checkTx txData with
  | none => []
  | some _ => List.range (transfer_length (txData.length : ℤ) rx_length).toNat

/-- Whether every buffer access of `SPI_transfer txData rx_length` stays
inside the fixed 256-byte stack buffers `tx_buf` and `rx_buf`
(spi.c:113-114). -/
def accessesInBounds (txData : List ℤ) (rx_length : ℤ) : Bool :=
  (txBufWriteIndices txData rx_length).all (fun i => decide (i < MAX_TRANSFER_LENGTH)) &&
  (rxBufAccessIndices txData rx_length).all (fun i => decide (i < MAX_TRANSFER_LENGTH))

/-- spi.c:230 `snprintf(path, MAXPATH, "/dev/spidev%d.%d", bus, device)`:
the untruncated formatted path. -/
def spidevPath (bus device : ℤ) : String :=
  "/dev/spidev" ++ toString bus ++ "." ++ toString device

/-- OS oracle for `SPI_open`: `osOpen` is the `open(path, O_RDWR, 0)`
syscall (returns the new descriptor, negative on failure — POSIX `open`
returns `-1`); the three `rd*` functions are the query ioctls
`SPI_IOC_RD_MODE`, `SPI_IOC_RD_BITS_PER_WORD`, `SPI_IOC_RD_MAX_SPEED_HZ`
on a descriptor, `none` meaning the ioctl returned `-1`. -/
structure OsOracle where
  osOpen : String → ℤ
  rdMode : ℤ → Option ℕ
  rdBitsPerWord : ℤ → Option ℕ
  rdMaxSpeedHz : ℤ → Option ℕ

/-- spi.c:216-268 `SPI_open`.  Formats the path (raising
`PyExc_OverflowError` when `snprintf` reports it would not fit in
`MAXPATH` bytes, spi.c:230-235), then assigns `self->fd = open(path,
O_RDWR, 0)` — note the assignment happens before the failure test, so on
a failed open the stored descriptor is the syscall's `-1` return
(spi.c:237-243).  On success it reads back mode, bits-per-word and max
speed, each query failing independently with `SpiError` and leaving the
fields assigned so far (spi.c:245-264). -/
def SPI_open (self : SPI) (os : OsOracle) (bus device : ℤ) : Option PyErr × SPI :=
  let path := spidevPath bus device
  if MAXPATH ≤ path.length then
    (some (.overflowError "Bus and/or device number is invalid."), self)
  else
    let fd := os.osOpen path
    if fd < 0 then
      (some (.spiError ("can't open device: " ++ path)), { self with fd := fd })
    else
      match os.rdMode fd with
      | none => (some (.spiError "can't get spi mode"), { self with fd := fd })
      | some m =>
        match os.rdBitsPerWord fd with
        | none => (some (.spiError "can't get bits per word"),
                   { self with fd := fd, mode := m })
        | some b =>
          match os.rdMaxSpeedHz fd with
          | none => (some (.spiError "can't get max speed hz"),
                     { self with fd := fd, mode := m, bpw := b })
          | some sp => (none, { fd := fd, mode := m, bpw := b, msh := sp })

/-! ### Helper lemmas about the transmit-conversion loop and the length
computation -/

theorem checkTx_eq_none_of_mem {l : List ℤ} (h : ∃ c ∈ l, 255 < c ∨ c < 0) :
    checkTx l = none := by
  induction l with
  | nil => obtain ⟨c, hc, _⟩ := h; cases hc
  | cons a t ih =>
    obtain ⟨c, hc, hbad⟩ := h
    by_cases ha : 255 < a ∨ a < 0
    · simp [checkTx, ha]
    · have hct : c ∈ t := by
        cases List.mem_cons.mp hc with
        | inl h1 => exact absurd hbad (h1 ▸ ha)
        | inr h2 => exact h2
      simp [checkTx, ha, ih ⟨c, hct, hbad⟩]

theorem checkTx_cons_some {a : ℤ} {t : List ℤ} {bs : List ℕ}
    (h : checkTx (a :: t) = some bs) :
    a ≤ 255 ∧ 0 ≤ a ∧ ∃ bs', checkTx t = some bs' ∧ bs = a.toNat :: bs' := by
  by_cases ha : 255 < a ∨ a < 0
  · simp [checkTx, ha] at h
  · push_neg at ha
    refine ⟨ha.1, ha.2, ?_⟩
    rw [checkTx, if_neg (by push_neg; exact ha)] at h
    cases hct : checkTx t with
    | none => rw [hct] at h; simp at h
    | some bs' =>
      rw [hct] at h
      simp only [Option.map_some', Option.some.injEq] at h
      exact ⟨bs', rfl, h.symm⟩

theorem checkTx_length : ∀ {l : List ℤ} {bs : List ℕ},
    checkTx l = some bs → bs.length = l.length := by
  intro l
  induction l with
  | nil => intro bs h; simp [checkTx] at h; simp [h.symm]
  | cons a t ih =>
    intro bs h
    obtain ⟨-, -, bs', hbs', rfl⟩ := checkTx_cons_some h
    simp [ih hbs']

theorem checkTx_map_cast : ∀ {l : List ℤ} {bs : List ℕ},
    checkTx l = some bs → bs.map (fun b : ℕ => (b : ℤ)) = l := by
  intro l
  induction l with
  | nil =>
    intro bs h
    simp only [checkTx, Option.some.injEq] at h
    rw [← h]; rfl
  | cons a t ih =>
    intro bs h
    obtain ⟨-, ha, bs', hbs', rfl⟩ := checkTx_cons_some h
    rw [List.map_cons, ih hbs', Int.toNat_of_nonneg ha]

theorem transfer_length_nonneg {a b : ℤ} (ha : 0 ≤ a) :
    0 ≤ transfer_length a b := by
  unfold transfer_length; split <;> omega

theorem le_transfer_length_left (a b : ℤ) : a ≤ transfer_length a b := by
  unfold transfer_length; split <;> omega

theorem le_transfer_length_right (a b : ℤ) : b ≤ transfer_length a b := by
  unfold transfer_length; split <;> omega

theorem transfer_length_eq_max (a b : ℤ) : transfer_length a b = max a b := by
  unfold transfer_length
  rw [max_def]
  split <;> split <;> omega

theorem checkTx_replicate_zero : ∀ n : ℕ,
    checkTx (List.replicate n (0 : ℤ)) = some (List.replicate n 0) := by
  intro n
  induction n with
  | zero => rfl
  | succ k ih =>
    rw [List.replicate_succ, List.replicate_succ, checkTx,
      if_neg (by push_neg; exact ⟨by norm_num, le_refl 0⟩), ih]
    rfl

/-! ### Claim theorems -/

/-- C3: a `transfer` call whose `txData` contains an element outside
0–255 fails with the out-of-range-byte error (the kind the spec's
taxonomy names `ValueError`; realised as `PyExc_AttributeError` at
spi.c:129) and the failure occurs before any device I/O: the
`SPI_IOC_MESSAGE` ioctl is never issued and no transmit buffer is handed
to the kernel. -/
theorem transfer_rejects_out_of_range_before_io
    (self : SPI) (kernel : List ℕ → List ℕ) (txData : List ℤ) (rx_length : ℤ)
    (h : ∃ c ∈ txData, 255 < c ∨ c < 0) :
    (SPI_transfer self kernel txData rx_length).result
        = .error (.attributeError "Transmit data should be valid 8-bit data") ∧
    (SPI_transfer self kernel txData rx_length).ioctlIssued = false ∧
    (SPI_transfer self kernel txData rx_length).txSent = none := by
  have hn := checkTx_eq_none_of_mem h
  unfold SPI_transfer
  rw [hn]
  exact ⟨rfl, rfl, rfl⟩

/-- Witness for `transfer_rejects_out_of_range_before_io`:
`transfer([300])` on a fresh instance. -/
theorem transfer_rejects_out_of_range_before_io_witness :
    (SPI_transfer SPI_new (fun l => l) [300] 0).result
        = .error (.attributeError "Transmit data should be valid 8-bit data") ∧
    (SPI_transfer SPI_new (fun l => l) [300] 0).ioctlIssued = false ∧
    (SPI_transfer SPI_new (fun l => l) [300] 0).txSent = none :=
  transfer_rejects_out_of_range_before_io SPI_new (fun l => l) [300] 0
    ⟨300, by decide, by decide⟩

/-- C5 (code-bug exhibit): `SPI_transfer` performs no check that the
instance is opened.  On a fresh unopened instance (`fd = -1` from
`SPI_new`, spi.c:65) with `transfer([0])`, the transfer ioctl is issued
anyway — on descriptor `-1` (spi.c:181) — and the receive buffer is
returned as a 1-tuple instead of any not-open failure. -/
theorem transfer_on_unopened_issues_ioctl :
    SPI_new.fd = -1 ∧
    (SPI_transfer SPI_new (fun l => l) [0] 0).ioctlIssued = true ∧
    (SPI_transfer SPI_new (fun l => l) [0] 0).ioctlFd = some (-1) ∧
    (SPI_transfer SPI_new (fun l => l) [0] 0).result = .ok [0] :=
  ⟨rfl, rfl, rfl, rfl⟩

/-- C6 counterexample: on an opened instance (descriptor 3, cached mode
1, bits-per-word 8, max speed 500000) whose close syscall fails,
`SPI_close` raises IOError but leaves the in-memory state untouched:
the descriptor is still 3 — not the `-1` unopened sentinel — and the
cached fields are not cleared, because spi.c:80-84 returns before the
resets at spi.c:86-89.  This refutes the claim that the state is
nevertheless reset to unopened. -/
theorem close_failure_counterexample :
    (SPI_close ⟨3, 1, 8, 500000⟩ true).1 = some PyErr.ioErrorFromErrno ∧
    (SPI_close ⟨3, 1, 8, 500000⟩ true).2.fd = 3 ∧
    (SPI_close ⟨3, 1, 8, 500000⟩ true).2.mode = 1 ∧
    (SPI_close ⟨3, 1, 8, 500000⟩ true).2.bpw = 8 ∧
    (SPI_close ⟨3, 1, 8, 500000⟩ true).2.msh = 500000 := by
  decide

/-- C6 (amended): when the close syscall itself fails on an opened
instance, `SPI_close` fails with IOError
(`PyErr_SetFromErrno(PyExc_IOError)`, spi.c:82) carrying the OS error,
and the in-memory state is left unchanged: the descriptor and the
cached `mode`/`bpw`/`msh` keep their pre-call values, since the resets
at spi.c:86-89 are not reached. -/
theorem close_failure_raises_ioerror_state_unchanged
    (s : SPI) (h : s.fd ≠ -1) :
    SPI_close s true = (some PyErr.ioErrorFromErrno, s) := by
  unfold SPI_close
  rw [if_pos ⟨h, rfl⟩]

/-- Witness for `close_failure_raises_ioerror_state_unchanged` at the
opened instance `⟨5, 0, 0, 0⟩`. -/
theorem close_failure_raises_ioerror_state_unchanged_witness :
    SPI_close ⟨5, 0, 0, 0⟩ true = (some PyErr.ioErrorFromErrno, ⟨5, 0, 0, 0⟩) :=
  close_failure_raises_ioerror_state_unchanged ⟨5, 0, 0, 0⟩ (by decide)

/-- C7: closing an already-unopened instance (`fd = -1`) succeeds as a
no-op — the close syscall is short-circuited away at spi.c:80 — so a
second `close` after a successful one succeeds as well; and every
successful completion of `SPI_close` leaves `fd = -1` and `mode`,
`bpw`, `msh` reset to zero (spi.c:86-89). -/
theorem close_idempotent_and_resets :
    (∀ (s : SPI) (b : Bool), s.fd = -1 → SPI_close s b = (none, SPI_new)) ∧
    (∀ (s s' : SPI) (b b' : Bool), SPI_close s b = (none, s') →
      SPI_close s' b' = (none, SPI_new)) ∧
    (∀ (s s' : SPI) (b : Bool), SPI_close s b = (none, s') →
      s'.fd = -1 ∧ s'.mode = 0 ∧ s'.bpw = 0 ∧ s'.msh = 0) := by
  have hok : ∀ (s s' : SPI) (b : Bool), SPI_close s b = (none, s') → s' = SPI_new := by
    intro s s' b h
    unfold SPI_close at h
    split at h
    · simp at h
    · rw [Prod.mk.injEq] at h
      exact h.2.symm
  have h1 : ∀ (s : SPI) (b : Bool), s.fd = -1 → SPI_close s b = (none, SPI_new) := by
    intro s b h
    unfold SPI_close
    rw [if_neg]
    · rfl
    · rintro ⟨hfd, -⟩
      exact hfd h
  refine ⟨h1, ?_, ?_⟩
  · intro s s' b b' h
    have hs' := hok s s' b h
    subst hs'
    exact h1 SPI_new b' rfl
  · intro s s' b h
    have hs' := hok s s' b h
    subst hs'
    exact ⟨rfl, rfl, rfl, rfl⟩

/-- Witness for `close_idempotent_and_resets`: closing a fresh
(unopened) instance succeeds and yields the reset state. -/
theorem close_idempotent_and_resets_witness :
    SPI_close SPI_new true = (none, SPI_new) :=
  close_idempotent_and_resets.1 SPI_new true rfl

/-- C9: a negative `minimumResponseLength` behaves exactly as 0: since
`tx_length ≥ 0 > rx_length`, the comparison at spi.c:141 picks
`transfer_length = tx_length`, so the whole call — padding written,
buffer handed to the kernel, returned tuple — is identical to the
`rx_length = 0` call, and `transfer_length` equals `len(txData)`. -/
theorem transfer_negative_min_response_like_zero
    (self : SPI) (kernel : List ℕ → List ℕ) (txData : List ℤ)
    (rx_length : ℤ) (h : rx_length < 0) :
    SPI_transfer self kernel txData rx_length = SPI_transfer self kernel txData 0 ∧
    transfer_length (txData.length : ℤ) rx_length = (txData.length : ℤ) := by
  have hlen : transfer_length (txData.length : ℤ) rx_length
      = transfer_length (txData.length : ℤ) 0 := by
    unfold transfer_length
    split <;> split <;> omega
  constructor
  · unfold SPI_transfer
    simp only [hlen]
  · unfold transfer_length
    split <;> omega

/-- Witness for `transfer_negative_min_response_like_zero`:
`transfer([5], -2)` equals `transfer([5], 0)`. -/
theorem transfer_negative_min_response_like_zero_witness :
    SPI_transfer SPI_new (fun l => l) [5] (-2) = SPI_transfer SPI_new (fun l => l) [5] 0 ∧
    transfer_length (([5] : List ℤ).length : ℤ) (-2) = (([5] : List ℤ).length : ℤ) :=
  transfer_negative_min_response_like_zero SPI_new (fun l => l) [5] (-2) (by decide)

/-- C1: on an opened device, with all-valid `txData` of length at most
`MAX_TRANSFER_LENGTH` and a non-negative `minimumResponseLength`, the
call returns the receive buffer, in the order received, of length
exactly `max(len(txData), minimumResponseLength)` — the tuple built at
spi.c:204-208 from `rx_buf[0..transfer_length)` with `transfer_length`
computed at spi.c:141-148; in particular with `minimumResponseLength =
0` the result has length `len(txData)`.  `hkernel` states that the
full-duplex ioctl fills exactly `.len` receive bytes. -/
theorem transfer_returns_rx_buffer
    (self : SPI) (kernel : List ℕ → List ℕ) (txData : List ℤ)
    (rx_length : ℤ) (bs : List ℕ)
    (hopen : self.fd ≠ -1)
    (hkernel : ∀ l, (kernel l).length = l.length)
    (hvalid : checkTx txData = some bs)
    (hmax : txData.length ≤ MAX_TRANSFER_LENGTH)
    (hrx : 0 ≤ rx_length) :
    ∃ buf, (SPI_transfer self kernel txData rx_length).txSent = some buf ∧
      (SPI_transfer self kernel txData rx_length).result = .ok (kernel buf) ∧
      ((kernel buf).length : ℤ) = max (txData.length : ℤ) rx_length ∧
      (rx_length = 0 → (kernel buf).length = txData.length) := by
  have hbs := checkTx_length hvalid
  have htl1 : (txData.length : ℤ) ≤ transfer_length (txData.length : ℤ) rx_length :=
    le_transfer_length_left _ _
  have htl0 : 0 ≤ transfer_length (txData.length : ℤ) rx_length :=
    transfer_length_nonneg (Int.natCast_nonneg _)
  set buf : List ℕ :=
    bs ++ List.replicate ((transfer_length (txData.length : ℤ) rx_length).toNat - txData.length) 0
    with hbufdef
  have hbuflen : buf.length = (transfer_length (txData.length : ℤ) rx_length).toNat := by
    rw [hbufdef, List.length_append, List.length_replicate, hbs]
    omega
  have hkb : (kernel buf).length = (transfer_length (txData.length : ℤ) rx_length).toNat := by
    rw [hkernel]; exact hbuflen
  refine ⟨buf, ?_, ?_, ?_, ?_⟩
  · unfold SPI_transfer
    rw [hvalid]
  · unfold SPI_transfer
    rw [hvalid]
    show Except.ok ((kernel buf).take _) = Except.ok (kernel buf)
    rw [List.take_of_length_le (le_of_eq hkb)]
  · rw [hkb, ← transfer_length_eq_max, Int.toNat_of_nonneg htl0]
  · intro h0
    subst h0
    rw [hkb]
    unfold transfer_length
    split <;> omega

/-- Witness for `transfer_returns_rx_buffer`: `transfer([1, 2], 3)` on
an opened instance, with a loopback kernel oracle. -/
theorem transfer_returns_rx_buffer_witness :
    ∃ buf, (SPI_transfer ⟨3, 0, 0, 0⟩ (fun l => l) [1, 2] 3).txSent = some buf ∧
      (SPI_transfer ⟨3, 0, 0, 0⟩ (fun l => l) [1, 2] 3).result = .ok buf ∧
      ((buf : List ℕ).length : ℤ) = max (([1, 2] : List ℤ).length : ℤ) 3 ∧
      ((3 : ℤ) = 0 → (buf : List ℕ).length = ([1, 2] : List ℤ).length) :=
  transfer_returns_rx_buffer ⟨3, 0, 0, 0⟩ (fun l => l) [1, 2] 3 [1, 2]
    (by decide) (fun l => rfl) (by decide) (by decide) (by decide)

/-- C2: when `minimumResponseLength = N > len(txData)` and all bytes
are valid, the transmit buffer handed to the kernel (`tx_buf` with
`.len = transfer_length`, spi.c:170-178) has length `N`, its prefix is
exactly the bytes of `txData` in order (copy loop spi.c:124-133), and
every byte from position `len(txData)` up to `N-1` is zero (padding
loop spi.c:150-155): mapped back to integers the buffer is literally
`txData` followed by zeros. -/
theorem transfer_pads_with_zeros
    (self : SPI) (kernel : List ℕ → List ℕ) (txData : List ℤ)
    (N : ℤ) (bs : List ℕ)
    (hvalid : checkTx txData = some bs)
    (hN : (txData.length : ℤ) < N) :
    ∃ buf, (SPI_transfer self kernel txData N).txSent = some buf ∧
      (buf.length : ℤ) = N ∧
      buf.map (fun b : ℕ => (b : ℤ))
        = txData ++ List.replicate (buf.length - txData.length) (0 : ℤ) := by
  have hbs := checkTx_length hvalid
  have htl : transfer_length (txData.length : ℤ) N = N := by
    unfold transfer_length; split <;> omega
  set buf : List ℕ :=
    bs ++ List.replicate ((transfer_length (txData.length : ℤ) N).toNat - txData.length) 0
    with hbufdef
  have hbuflen : buf.length
      = txData.length + ((transfer_length (txData.length : ℤ) N).toNat - txData.length) := by
    rw [hbufdef, List.length_append, List.length_replicate, hbs]
  refine ⟨buf, ?_, ?_, ?_⟩
  · unfold SPI_transfer
    rw [hvalid]
  · rw [hbuflen, htl]
    omega
  · rw [hbufdef, List.map_append, checkTx_map_cast hvalid, List.map_replicate, Nat.cast_zero]
    rw [← hbufdef, hbuflen]
    have harith :
        txData.length + ((transfer_length (txData.length : ℤ) N).toNat - txData.length)
            - txData.length
          = (transfer_length (txData.length : ℤ) N).toNat - txData.length := by omega
    rw [harith]

/-- Witness for `transfer_pads_with_zeros`: `transfer([7], 3)` hands
the kernel the 3-byte buffer `[7, 0, 0]`. -/
theorem transfer_pads_with_zeros_witness :
    ∃ buf, (SPI_transfer SPI_new (fun l => l) [7] 3).txSent = some buf ∧
      ((buf : List ℕ).length : ℤ) = 3 ∧
      (buf : List ℕ).map (fun b : ℕ => (b : ℤ))
        = [7] ++ List.replicate ((buf : List ℕ).length - ([7] : List ℤ).length) (0 : ℤ) :=
  transfer_pads_with_zeros SPI_new (fun l => l) [7] 3 [7] (by decide) (by decide)

/-- C8: with a path that fits the 16-byte buffer and an `open` syscall
that fails (POSIX `open` returns `-1` when the node does not exist or
access is denied), `SPI_open` fails with the module's `SpiError` (the
spec's `OpenError`) whose message includes the failed path
(spi.c:237-243), and an unopened instance stays unopened with the
descriptor sentinel and all cached fields unchanged (the
`self->fd = open(...)` assignment re-stores the `-1` it got back). -/
theorem open_failure_leaves_unopened
    (self : SPI) (os : OsOracle) (bus device : ℤ)
    (hself : self.fd = -1)
    (hfit : (spidevPath bus device).length < MAXPATH)
    (hfail : os.osOpen (spidevPath bus device) = -1) :
    SPI_open self os bus device
      = (some (.spiError ("can't open device: " ++ spidevPath bus device)), self) := by
  obtain ⟨fd0, m0, b0, s0⟩ := self
  simp only at hself
  subst hself
  simp only [SPI_open]
  rw [if_neg (not_le.mpr hfit), hfail]
  rw [if_pos (show (-1 : ℤ) < 0 by decide)]

/-- Witness for `open_failure_leaves_unopened`: opening bus 0, device 0
on a fresh instance against an OS where every open fails. -/
theorem open_failure_leaves_unopened_witness :
    SPI_open SPI_new ⟨fun _ => -1, fun _ => none, fun _ => none, fun _ => none⟩ 0 0
      = (some (.spiError ("can't open device: " ++ spidevPath 0 0)), SPI_new) :=
  open_failure_leaves_unopened SPI_new
    ⟨fun _ => -1, fun _ => none, fun _ => none, fun _ => none⟩ 0 0
    rfl (by decide) rfl

set_option maxRecDepth 4000 in
/-- C10 (amended): for calls whose `txData` elements are all valid
bytes — i.e. calls that reach the buffer-filling and transfer code —
every access to the fixed 256-byte `tx_buf` and `rx_buf` (spi.c:113-114)
is in bounds iff `max(len(txData), minimumResponseLength) ≤ 256`; and
bounding `len(txData)` alone is insufficient: `transfer([], 300)` has
`len(txData) = 0 ≤ 256` yet indexes both buffers past 255.  (The
valid-bytes hypothesis is needed because a call rejected at its first
element performs no access at all and is vacuously in bounds even when
`max > 256` — see the counterexample.) -/
theorem transfer_accesses_in_bounds_iff :
    (∀ (txData : List ℤ) (rx_length : ℤ) (bs : List ℕ),
      checkTx txData = some bs →
      (accessesInBounds txData rx_length = true ↔
        max (txData.length : ℤ) rx_length ≤ (MAX_TRANSFER_LENGTH : ℤ))) ∧
    (accessesInBounds [] 300 = false ∧ ([] : List ℤ).length ≤ MAX_TRANSFER_LENGTH) := by
  constructor
  · intro txData rx_length bs hvalid
    have htl : (txData.length : ℤ) ≤ transfer_length (txData.length : ℤ) rx_length :=
      le_transfer_length_left _ _
    unfold accessesInBounds txBufWriteIndices rxBufAccessIndices
    rw [hvalid, ← transfer_length_eq_max]
    simp only [List.all_append, Bool.and_eq_true, List.all_eq_true, List.mem_range,
      List.mem_range'_1, decide_eq_true_eq, MAX_TRANSFER_LENGTH]
    constructor
    · rintro ⟨⟨-, -⟩, hrx⟩
      by_contra hgt
      push_neg at hgt
      have h256 : 256 < (transfer_length (txData.length : ℤ) rx_length).toNat := by omega
      exact absurd (hrx 256 h256) (by omega)
    · intro hle
      refine ⟨⟨?_, ?_⟩, ?_⟩ <;> intro i hi <;> omega
  · constructor
    · decide
    · decide

/-- Witness for `transfer_accesses_in_bounds_iff` at
`transfer([1], 0)`. -/
theorem transfer_accesses_in_bounds_iff_witness :
    accessesInBounds [1] 0 = true ↔
      max (([1] : List ℤ).length : ℤ) 0 ≤ (MAX_TRANSFER_LENGTH : ℤ) :=
  transfer_accesses_in_bounds_iff.1 [1] 0 [1] (by decide)

set_option maxRecDepth 4000 in
/-- C10 counterexample to the claim as stated (quantified over every
call): `transfer` with `txData = 999 :: (300 zero bytes)` is rejected
at its very first element, so no buffer index is touched and every
access is (vacuously) in bounds, yet `max(len(txData),
minimumResponseLength) = 301 > 256` — the stated biconditional fails on
calls whose data is rejected before the buffers are filled. -/
theorem transfer_accesses_in_bounds_iff_counterexample :
    accessesInBounds ((999 : ℤ) :: List.replicate 300 0) 0 = true ∧
    ¬ (max ((((999 : ℤ) :: List.replicate 300 0) : List ℤ).length : ℤ) 0
        ≤ (MAX_TRANSFER_LENGTH : ℤ)) := by
  constructor
  · decide
  · decide

set_option maxRecDepth 4000 in
/-- C4 (code-bug exhibit): `transfer` with `txData` longer than
`MAX_TRANSFER_LENGTH` is not rejected — spi.c has no length check and
no buffer-too-large error path — and the conversion loop writes past
the fixed 256-byte `tx_buf`: at 257 zero bytes the call's buffer
accesses go out of bounds, yet the transfer ioctl is still issued and
the call returns a 257-byte tuple normally (here with a loopback kernel
oracle). -/
theorem transfer_overlong_overflow :
    MAX_TRANSFER_LENGTH < (List.replicate 257 (0 : ℤ)).length ∧
    accessesInBounds (List.replicate 257 (0 : ℤ)) 0 = false ∧
    (SPI_transfer SPI_new (fun l => l) (List.replicate 257 (0 : ℤ)) 0).ioctlIssued = true ∧
    (SPI_transfer SPI_new (fun l => l) (List.replicate 257 (0 : ℤ)) 0).result
      = .ok (List.replicate 257 0) := by
  refine ⟨by decide, by decide, by decide, by rfl⟩

end Spipy
